import Mathlib

/-!
Verification of `pytests/iroha_cli_tests/models/asset.py`.

The file defines two Python dataclasses, `AssetDefinition` and `Asset`,
with string-formatting helpers. We embed them shallowly: each dataclass
becomes a Lean structure, each method a pure function. Python dataclass
equality (`__eq__`) is field-wise; we embed it as an explicit Boolean
comparison. Methods contain no assignments, so their state-passing
embeddings return the input record unchanged alongside the result.
-/

/-- Embeds the `AssetDefinition` dataclass: fields `name`, `domain`,
and `scale` (`Optional[int]`, default `None`). -/
structure AssetDefinition where
  name : String
  domain : String
  scale : Option Int := none
deriving DecidableEq

namespace AssetDefinition

/-- Embeds `AssetDefinition.__repr__`: `f"{self.name}#{self.domain}"`. -/
def reprStr (d : AssetDefinition) : String :=
  d.name ++ "#" ++ d.domain

/-- Embeds `AssetDefinition.get_id`: `f"{self.name}#{self.domain}"`. -/
def get_id (d : AssetDefinition) : String :=
  d.name ++ "#" ++ d.domain

/-- Embeds the dataclass-generated `__eq__`: field-wise comparison of
`(name, domain, scale)`. -/
def eqPy (a b : AssetDefinition) : Bool :=
  a.name == b.name && a.domain == b.domain && a.scale == b.scale

/-- State-passing embedding of the `get_id` method call: the body is a
single `return` with no field assignment, so the receiver is returned
unchanged. -/
def get_id_method (d : AssetDefinition) : String × AssetDefinition :=
  (d.name ++ "#" ++ d.domain, d)

/-- State-passing embedding of the `__repr__` method call. -/
def reprStr_method (d : AssetDefinition) : String × AssetDefinition :=
  (d.name ++ "#" ++ d.domain, d)

end AssetDefinition

/-- Embeds the `Asset` dataclass: fields `definition`, `account`, `value`. -/
structure Asset where
  definition : AssetDefinition
  account : String
  value : String
deriving DecidableEq

namespace Asset

/-- Embeds `Asset.__repr__`: `f"{self.definition.get_id()}:{self.value}"`. -/
def reprStr (a : Asset) : String :=
  a.definition.get_id ++ ":" ++ a.value

/-- Embeds `Asset.get_value`: `return self.value`. -/
def get_value (a : Asset) : String :=
  a.value

/-- Embeds the dataclass-generated `__eq__` on `Asset`: field-wise
comparison of `(definition, account, value)`, where the `definition`
fields are compared by the dataclass `__eq__` of `AssetDefinition`. -/
def eqPy (a b : Asset) : Bool :=
  AssetDefinition.eqPy a.definition b.definition
    && a.account == b.account && a.value == b.value

/-- State-passing embedding of the `__repr__` method call on `Asset`:
no field assignment occurs, so the receiver is returned unchanged. -/
def reprStr_method (a : Asset) : String × Asset :=
  (a.definition.get_id ++ ":" ++ a.value, a)

/-- State-passing embedding of the `get_value` method call. -/
def get_value_method (a : Asset) : String × Asset :=
  (a.value, a)

end Asset

/-- C1: for every pair of strings `n` and `d`, `get_id` on an
`AssetDefinition` built with name `n` and domain `d` (any scale)
returns `n ++ "#" ++ d`; the function is total, with no error value. -/
theorem C1_get_id_format (n d : String) (s : Option Int) :
    (AssetDefinition.mk n d s).get_id = n ++ "#" ++ d := rfl

/-- C2: for every `AssetDefinition` `D` and strings `a`, `v`, the display
representation of `Asset.mk D a v` is `D.get_id ++ ":" ++ v`; it is a
pure function of the current `definition` and `value` fields, so it is
recomputed from them at every read. -/
theorem C2_asset_repr (D : AssetDefinition) (a v : String) :
    (Asset.mk D a v).reprStr = D.get_id ++ ":" ++ v := rfl

/-- C3: `get_value` on `Asset.mk D a v` returns exactly the stored string
`v`, for every string `v` (including non-numeric ones such as "abc"),
with no numeric conversion. -/
theorem C3_get_value_passthrough (D : AssetDefinition) (a v : String) :
    (Asset.mk D a v).get_value = v := rfl

/-- C4: the display representation of an `AssetDefinition` is
extensionally equal to `get_id`. -/
theorem C4_repr_eq_get_id (d : AssetDefinition) :
    d.reprStr = d.get_id := rfl

/-- C5: constructing an `AssetDefinition` with name "xor", domain
"soramitsu" and no scale argument yields `scale = none` and
`get_id = "xor#soramitsu"`. -/
theorem C5_default_scale :
    ({ name := "xor", domain := "soramitsu" } : AssetDefinition).scale = none
      ∧ ({ name := "xor", domain := "soramitsu" } : AssetDefinition).get_id
          = "xor#soramitsu" := by
  constructor
  · rfl
  · rfl

/-- C6: construction stores every field verbatim for arbitrary strings
(including empty ones) and any integer scale (including negative values),
and every operation (`get_id`, `get_value`, both display forms) is a total
function producing its formatted string, with no error path. -/
theorem C6_total_no_validation (n d : String) (s : Option Int)
    (acct v : String) :
    (AssetDefinition.mk n d s).name = n
      ∧ (AssetDefinition.mk n d s).domain = d
      ∧ (AssetDefinition.mk n d s).scale = s
      ∧ (Asset.mk (AssetDefinition.mk n d s) acct v).definition
          = AssetDefinition.mk n d s
      ∧ (Asset.mk (AssetDefinition.mk n d s) acct v).account = acct
      ∧ (Asset.mk (AssetDefinition.mk n d s) acct v).value = v
      ∧ (AssetDefinition.mk n d s).get_id = n ++ "#" ++ d
      ∧ (AssetDefinition.mk n d s).reprStr = n ++ "#" ++ d
      ∧ (Asset.mk (AssetDefinition.mk n d s) acct v).get_value = v
      ∧ (Asset.mk (AssetDefinition.mk n d s) acct v).reprStr
          = n ++ "#" ++ d ++ ":" ++ v := by
  refine ⟨rfl, rfl, rfl, rfl, rfl, rfl, rfl, rfl, rfl, ?_⟩
  simp [Asset.reprStr, AssetDefinition.get_id, String.append_assoc]

/-- C7: two `AssetDefinition` records built from identical name, domain
and scale values compare equal under the dataclass field-wise equality,
and the field-wise equality holds exactly when all three fields agree. -/
theorem C7_structural_equality (n d : String) (s : Option Int)
    (a b : AssetDefinition) :
    AssetDefinition.eqPy (AssetDefinition.mk n d s)
        (AssetDefinition.mk n d s) = true
      ∧ (AssetDefinition.eqPy a b = true
          ↔ a.name = b.name ∧ a.domain = b.domain ∧ a.scale = b.scale) := by
  constructor
  · simp [AssetDefinition.eqPy]
  · simp [AssetDefinition.eqPy, and_assoc]

/-- C8: every method call (`get_id`, both display representations,
`get_value`) returns the receiver record with all fields unchanged:
the records are immutable under every operation. -/
theorem C8_frame_immutability (d : AssetDefinition) (a : Asset) :
    (AssetDefinition.get_id_method d).2 = d
      ∧ (AssetDefinition.reprStr_method d).2 = d
      ∧ (Asset.reprStr_method a).2 = a
      ∧ (Asset.get_value_method a).2 = a :=
  ⟨rfl, rfl, rfl, rfl⟩

/-- C9: `get_id` is not injective on `(name, domain)` pairs: the records
with name "a#b", domain "c" and name "a", domain "b#c" differ in their
fields yet share the identity string "a#b#c". -/
theorem C9_id_not_injective :
    ∃ d₁ d₂ : AssetDefinition,
      (d₁.name, d₁.domain) ≠ (d₂.name, d₂.domain)
        ∧ d₁.get_id = d₂.get_id := by
  refine ⟨⟨"a#b", "c", none⟩, ⟨"a", "b#c", none⟩, ?_, ?_⟩
  · decide
  · rfl

/-- C10: dataclass equality on `Asset` is structural: two assets compare
equal exactly when their definitions are field-wise equal
`AssetDefinition`s and their account and value strings are equal. -/
theorem C10_asset_structural_equality (a b : Asset) :
    Asset.eqPy a b = true
      ↔ (AssetDefinition.eqPy a.definition b.definition = true
          ∧ a.account = b.account ∧ a.value = b.value) := by
  simp [Asset.eqPy, and_assoc]
